import Mathlib

/-!
Verification of the chat frontend in `src/frontend/src/App.jsx`.

The component keeps five pieces of React state (`messages`, `input`,
`showHistory`, `history`, `loadingHistory`).  We embed that state as a
structure, embed the `sendMessage` handler and the history `useEffect`
as pure state transformers (network outcomes are passed in explicitly),
and embed UI interaction as an event trace folded over a step function.
Each function also reports how many network requests it issued, so that
request-count properties can be stated.
-/

namespace Chatbot

/-- The fixed backend base address from `App.jsx`. -/
def BACKEND_URL : String := "http://localhost:5000"

/-- The `sender` field of a message: `"user"` or `"bot"` in the source. -/
inductive Sender
  | user
  | bot
deriving DecidableEq, Repr

/-- A chat message as built in `sendMessage` and as rendered: sender,
text and a display-formatted timestamp string. -/
structure Message where
  sender : Sender
  text : String
  timestamp : String
deriving DecidableEq, Repr

/-- Parsed JSON body of a `POST /chat` response.  `reply = none` models a
body with no `reply` field (so `data.reply` is `undefined`). -/
structure ChatResponseBody where
  reply : Option String
deriving DecidableEq, Repr

/-- Outcome of the `/chat` round trip as observed by `sendMessage`:
either `fetch` rejects (network error), or an HTTP response arrives with
its `ok` flag and the result of `res.json()` (`none` when the body is
not valid JSON, making `res.json()` reject). -/
inductive ChatOutcome
  | networkError
  | response (ok : Bool) (parsed : Option ChatResponseBody)
deriving DecidableEq, Repr

/-- Parsed JSON body of a `GET /history` response.  `history = none`
models a body whose `history` field is absent or falsy. -/
structure HistoryResponseBody where
  history : Option (List Message)
deriving DecidableEq, Repr

/-- Outcome of the history fetch chain `fetch(...).then(res => res.json())`:
`failure` when either promise rejects, `success` with the parsed body
otherwise. -/
inductive HistoryOutcome
  | failure
  | success (body : HistoryResponseBody)
deriving DecidableEq, Repr

/-- The React state of `App`. -/
structure AppState where
  messages : List Message
  input : String
  showHistory : Bool
  history : List Message
  loadingHistory : Bool
deriving DecidableEq, Repr

/-- The initial state set by the `useState` calls. -/
def initialState : AppState :=
  { messages := [], input := "", showHistory := false,
    history := [], loadingHistory := false }

/-- JavaScript `String.prototype.trim`, modelled on the character list:
leading and trailing whitespace characters are removed.  Only used
through the guard `!input.trim()`, i.e. the test `jsTrim l = []`. -/
def jsTrim (l : List Char) : List Char :=
  ((l.dropWhile Char.isWhitespace).reverse.dropWhile Char.isWhitespace).reverse

/-- JavaScript `s || d` for a string `s`: the empty string is the only
falsy string. -/
def jsStringOr (s d : String) : String :=
  if s = "" then d else s

/-- The placeholder text used when the reply is missing or falsy. -/
def noReplyText : String := "(No reply)"

/-- The fixed error text appended when the `/chat` call throws. -/
def backendErrorText : String := "Error: Could not reach backend."

/-- `data.reply || "(No reply)"` on a parsed chat response body. -/
def chatReplyText (body : ChatResponseBody) : String :=
  match body.reply with
  | some s => jsStringOr s noReplyText
  | none => noReplyText

/-- Text of the bot message appended once the `/chat` call settles.  The
`catch` arm fires when `fetch` rejects or when `res.json()` rejects; the
`ok` flag of the response is never consulted by the source. -/
def chatBotText : ChatOutcome → String
  | ChatOutcome.networkError => backendErrorText
  | ChatOutcome.response _ none => backendErrorText
  | ChatOutcome.response _ (some body) => chatReplyText body

/-- The synchronous prefix of `sendMessage`, up to and including issuing
the `POST /chat` request: the guard `if (!input.trim()) return`, the
optimistic append of the user message, and the clearing of the input
field.  Returns the state at the moment the request is in flight and the
number of `POST /chat` requests issued (0 or 1).  `now` is the formatted
timestamp taken at this point. -/
def sendMessagePre (s : AppState) (now : String) : AppState × Nat :=
  if jsTrim s.input.data = [] then (s, 0)
  else
    ({ s with
        messages := s.messages ++
          [{ sender := Sender.user, text := s.input, timestamp := now }],
        input := "" }, 1)

/-- The continuation of `sendMessage` once the `/chat` call settles:
exactly one bot message is appended, with the reply text on success and
the fixed error text when the `try` block throws. -/
def sendMessageResolve (s : AppState) (outcome : ChatOutcome)
    (now : String) : AppState :=
  { s with
      messages := s.messages ++
        [{ sender := Sender.bot, text := chatBotText outcome, timestamp := now }] }

/-- The whole `sendMessage` handler, sequentially composed: the final
state and the number of `POST /chat` requests issued.  `now` and `now2`
are the timestamps taken for the user and bot messages. -/
def sendMessage (s : AppState) (outcome : ChatOutcome)
    (now now2 : String) : AppState × Nat :=
  if jsTrim s.input.data = [] then (s, 0)
  else (sendMessageResolve (sendMessagePre s now).1 outcome now2, 1)

/-- `data.history || []` on a parsed history response body: a missing or
falsy `history` field yields the empty list. -/
def historyField (body : HistoryResponseBody) : List Message :=
  match body.history with
  | some l => l
  | none => []

/-- The body of the history `useEffect`, which React runs whenever
`showHistory` changes: if the panel is shown, set the loading flag and
issue one `GET /history`.  Returns the state with the request in flight
and the number of `GET /history` requests issued. -/
def historyEffect (s : AppState) : AppState × Nat :=
  if s.showHistory then ({ s with loadingHistory := true }, 1) else (s, 0)

/-- Settlement of the history fetch.  On success the `then` handler runs
`setHistory(data.history || [])` and `setLoadingHistory(false)`; on any
failure the `catch` handler runs only `setLoadingHistory(false)`, so the
`history` list keeps its previous value. -/
def historyResolve (s : AppState) : HistoryOutcome → AppState
  | HistoryOutcome.failure => { s with loadingHistory := false }
  | HistoryOutcome.success body =>
      { s with history := historyField body, loadingHistory := false }

/-- Clicking the floating button: `setShowHistory(true)`.  React re-runs
the effect only when the value actually changed, so an already-open
panel fetches nothing. -/
def openHistory (s : AppState) : AppState × Nat :=
  if s.showHistory then (s, 0)
  else historyEffect { s with showHistory := true }

/-- Clicking the close button: `setShowHistory(false)`; the effect
re-runs but its guard is false, so no request is issued. -/
def closeHistory (s : AppState) : AppState × Nat :=
  if s.showHistory then historyEffect { s with showHistory := false }
  else (s, 0)

/-- A UI interaction, each network call settling before the next event
(the interface is single-threaded and nothing here overlaps requests). -/
inductive Event
  | setInput (t : String)
  | submit (outcome : ChatOutcome) (now now2 : String)
  | openPanel (outcome : HistoryOutcome)
  | closePanel
deriving Repr

/-- One UI event processed to quiescence.  Returns the new state, the
number of `POST /chat` requests and the number of `GET /history`
requests issued while handling the event. -/
def step (s : AppState) : Event → AppState × Nat × Nat
  | Event.setInput t => ({ s with input := t }, 0, 0)
  | Event.submit outcome now now2 =>
      ((sendMessage s outcome now now2).1, (sendMessage s outcome now now2).2, 0)
  | Event.openPanel outcome =>
      if s.showHistory then (s, 0, 0)
      else (historyResolve (openHistory s).1 outcome, 0, (openHistory s).2)
  | Event.closePanel =>
      ((closeHistory s).1, 0, (closeHistory s).2)

/-- Folding a trace of events: final state and cumulative request
counts. -/
def run (s : AppState) : List Event → AppState × Nat × Nat
  | [] => (s, 0, 0)
  | e :: es =>
      ((run (step s e).1 es).1,
       (step s e).2.1 + (run (step s e).1 es).2.1,
       (step s e).2.2 + (run (step s e).1 es).2.2)

/-- Number of open transitions of the History Panel along a trace: the
events after which the panel is open while it was closed before. -/
def openTransitions (s : AppState) : List Event → Nat
  | [] => 0
  | e :: es =>
      (if s.showHistory = false ∧ (step s e).1.showHistory = true then 1 else 0)
        + openTransitions (step s e).1 es

end Chatbot

namespace Chatbot

/-! ### Helper lemmas -/

/-- The `sendMessage` handler never touches the history-panel state:
`showHistory`, `history` and `loadingHistory` are preserved. -/
theorem sendMessage_panel_state (s : AppState) (outcome : ChatOutcome)
    (now now2 : String) :
    (sendMessage s outcome now now2).1.showHistory = s.showHistory
      ∧ (sendMessage s outcome now now2).1.history = s.history
      ∧ (sendMessage s outcome now now2).1.loadingHistory = s.loadingHistory := by
  by_cases h : jsTrim s.input.data = [] <;>
    simp [sendMessage, sendMessagePre, sendMessageResolve, h]

/-- In each step, a `GET /history` request is issued exactly when the
panel transitions from closed to open. -/
theorem step_history_requests (s : AppState) (e : Event) :
    (step s e).2.2
      = (if s.showHistory = false ∧ (step s e).1.showHistory = true then 1 else 0) := by
  cases e with
  | setInput t => cases hs : s.showHistory <;> simp [step, hs]
  | submit outcome now now2 =>
      have h := (sendMessage_panel_state s outcome now now2).1
      cases hs : s.showHistory <;> simp [step, h, hs]
  | openPanel outcome =>
      cases hs : s.showHistory with
      | true => simp [step, hs]
      | false =>
          cases outcome <;>
            simp [step, hs, openHistory, historyEffect, historyResolve]
  | closePanel =>
      cases hs : s.showHistory <;>
        simp [step, hs, closeHistory, historyEffect]

/-! ### Claims -/

/-- Claim C1, as stated, fails at the reply `""`: the chat call succeeds
with a JSON response whose `reply` field is the string `""`, yet the bot
message appended after the user message has text `"(No reply)"`, not the
reply `""`. -/
theorem C1_counterexample :
    (sendMessage ⟨[], "hi", false, [], false⟩
        (ChatOutcome.response true (some ⟨some ""⟩)) "t1" "t2").1.messages
      = [{ sender := Sender.user, text := "hi", timestamp := "t1" },
         { sender := Sender.bot, text := "(No reply)", timestamp := "t2" }]
    ∧ ("(No reply)" : String) ≠ "" := by
  constructor
  · decide
  · decide

/-- Claim C1 (amended): for every submitted text that is non-empty after
trimming, if the chat call succeeds with a JSON response whose `reply`
field is a non-empty string `X`, then the session list ends with the
triggering user message followed by a bot message with text `X`. -/
theorem C1_nonempty_reply_appended (s : AppState) (X : String) (ok : Bool)
    (now now2 : String) (hin : jsTrim s.input.data ≠ []) (hX : X ≠ "") :
    (sendMessage s (ChatOutcome.response ok (some ⟨some X⟩)) now now2).1.messages
      = s.messages ++
        [{ sender := Sender.user, text := s.input, timestamp := now },
         { sender := Sender.bot, text := X, timestamp := now2 }] := by
  simp [sendMessage, sendMessagePre, sendMessageResolve, chatBotText, chatReplyText,
    jsStringOr, hin, hX]

/-- Concrete instance of `C1_nonempty_reply_appended`: submitting `"hi"`
and receiving the reply `"Hello."`. -/
theorem C1_nonempty_reply_appended_witness :
    jsTrim ("hi" : String).data ≠ [] ∧ ("Hello." : String) ≠ ""
      ∧ (sendMessage ⟨[], "hi", false, [], false⟩
            (ChatOutcome.response true (some ⟨some "Hello."⟩)) "t1" "t2").1.messages
          = [{ sender := Sender.user, text := "hi", timestamp := "t1" },
             { sender := Sender.bot, text := "Hello.", timestamp := "t2" }] :=
  ⟨by decide, by decide,
   by simpa using C1_nonempty_reply_appended ⟨[], "hi", false, [], false⟩ "Hello." true
        "t1" "t2" (by decide) (by decide)⟩

/-- Claim C2: for every submitted text that is non-empty after trimming,
exactly one user message carrying the submitted text is appended before
the chat call resolves, and exactly one `POST /chat` request is issued
per submission, whatever the outcome. -/
theorem C2_one_user_message_then_one_request (s : AppState) (now : String)
    (h : jsTrim s.input.data ≠ []) :
    (sendMessagePre s now).1.messages
        = s.messages ++ [{ sender := Sender.user, text := s.input, timestamp := now }]
      ∧ (sendMessagePre s now).2 = 1
      ∧ ∀ outcome now2, (sendMessage s outcome now now2).2 = 1 := by
  refine ⟨?_, ?_, ?_⟩ <;> simp [sendMessagePre, sendMessage, h]

/-- Concrete instance of `C2_one_user_message_then_one_request` for the
submitted text `"hi"`. -/
theorem C2_one_user_message_then_one_request_witness :
    jsTrim ("hi" : String).data ≠ []
      ∧ (sendMessagePre ⟨[], "hi", false, [], false⟩ "10:00").1.messages
          = [{ sender := Sender.user, text := "hi", timestamp := "10:00" }]
      ∧ (sendMessagePre ⟨[], "hi", false, [], false⟩ "10:00").2 = 1
      ∧ ∀ outcome now2,
          (sendMessage ⟨[], "hi", false, [], false⟩ outcome "10:00" now2).2 = 1 := by
  have h := C2_one_user_message_then_one_request ⟨[], "hi", false, [], false⟩ "10:00" (by decide)
  exact ⟨by decide, by simpa using h.1, h.2.1, h.2.2⟩

/-- Claim C3: submitting when the input is empty or whitespace-only is a
no-op: the whole state (session list and input field included) is
unchanged and no request is issued. -/
theorem C3_blank_submit_is_noop (s : AppState) (outcome : ChatOutcome)
    (now now2 : String) (h : jsTrim s.input.data = []) :
    sendMessage s outcome now now2 = (s, 0) := by
  simp [sendMessage, h]

/-- Concrete instance of `C3_blank_submit_is_noop` for the whitespace
input `"   "`. -/
theorem C3_blank_submit_is_noop_witness :
    jsTrim ("   " : String).data = []
      ∧ sendMessage ⟨[], "   ", false, [], false⟩ ChatOutcome.networkError "t1" "t2"
          = (⟨[], "   ", false, [], false⟩, 0) :=
  ⟨by decide,
   C3_blank_submit_is_noop ⟨[], "   ", false, [], false⟩ ChatOutcome.networkError "t1" "t2" (by decide)⟩

/-- Claim C4, as stated, fails for a non-OK HTTP response whose body is
valid JSON: the source never consults `res.ok`, so a non-OK response
with body `\x7b\x7d` takes the success path and appends `"(No reply)"`,
not the fixed error text. -/
theorem C4_counterexample :
    (sendMessage ⟨[], "hi", false, [], false⟩
        (ChatOutcome.response false (some ⟨none⟩)) "t1" "t2").1.messages
      = [{ sender := Sender.user, text := "hi", timestamp := "t1" },
         { sender := Sender.bot, text := "(No reply)", timestamp := "t2" }]
    ∧ ("(No reply)" : String) ≠ "Error: Could not reach backend." := by
  constructor
  · decide
  · decide

/-- Claim C4 (amended): for every chat call that throws — a network
error, or a response (OK or not) whose body fails to parse as JSON — a
bot message with the fixed error text is appended after the user
message; the handler is total, so no exception escapes. -/
theorem C4_error_text_on_throw (s : AppState) (outcome : ChatOutcome)
    (now now2 : String) (hin : jsTrim s.input.data ≠ [])
    (hfail : outcome = ChatOutcome.networkError
      ∨ ∃ ok, outcome = ChatOutcome.response ok none) :
    (sendMessage s outcome now now2).1.messages
      = s.messages ++
        [{ sender := Sender.user, text := s.input, timestamp := now },
         { sender := Sender.bot, text := backendErrorText, timestamp := now2 }] := by
  rcases hfail with h | ⟨ok, h⟩ <;>
    simp [h, sendMessage, sendMessagePre, sendMessageResolve, chatBotText, hin]

/-- Concrete instance of `C4_error_text_on_throw` for a network error. -/
theorem C4_error_text_on_throw_witness :
    jsTrim ("hi" : String).data ≠ []
      ∧ (sendMessage ⟨[], "hi", false, [], false⟩ ChatOutcome.networkError "t1" "t2").1.messages
          = [{ sender := Sender.user, text := "hi", timestamp := "t1" },
             { sender := Sender.bot, text := backendErrorText, timestamp := "t2" }] :=
  ⟨by decide,
   by simpa using C4_error_text_on_throw ⟨[], "hi", false, [], false⟩
        ChatOutcome.networkError "t1" "t2" (by decide) (Or.inl rfl)⟩

/-- Claim C5: a successful chat response whose JSON body has no `reply`
field yields a bot message with the placeholder text `"(No reply)"`,
appended after the user message. -/
theorem C5_missing_reply_placeholder (s : AppState) (ok : Bool)
    (now now2 : String) (h : jsTrim s.input.data ≠ []) :
    (sendMessage s (ChatOutcome.response ok (some ⟨none⟩)) now now2).1.messages
      = s.messages ++
        [{ sender := Sender.user, text := s.input, timestamp := now },
         { sender := Sender.bot, text := noReplyText, timestamp := now2 }] := by
  simp [sendMessage, sendMessagePre, sendMessageResolve, chatBotText, chatReplyText, h]

/-- Concrete instance of `C5_missing_reply_placeholder`. -/
theorem C5_missing_reply_placeholder_witness :
    jsTrim ("hi" : String).data ≠ []
      ∧ (sendMessage ⟨[], "hi", false, [], false⟩
            (ChatOutcome.response true (some ⟨none⟩)) "t1" "t2").1.messages
          = [{ sender := Sender.user, text := "hi", timestamp := "t1" },
             { sender := Sender.bot, text := noReplyText, timestamp := "t2" }] :=
  ⟨by decide,
   by simpa using C5_missing_reply_placeholder ⟨[], "hi", false, [], false⟩ true "t1" "t2" (by decide)⟩

end Chatbot

namespace Chatbot

/-- Claim C6: opening the History Panel from a closed state issues
exactly one `GET /history` request, shows the loading indicator while
the request is in flight, and on a successful completion replaces the
displayed list wholesale with the response's `history` field — the prior
list does not appear in the result — with an absent or falsy field
yielding the empty list. -/
theorem C6_open_fetches_and_replaces (s : AppState) (body : HistoryResponseBody)
    (h : s.showHistory = false) :
    (openHistory s).2 = 1
      ∧ (openHistory s).1.loadingHistory = true
      ∧ historyResolve (openHistory s).1 (HistoryOutcome.success body)
          = { s with showHistory := true, loadingHistory := false,
                     history := historyField body }
      ∧ historyField ⟨none⟩ = [] := by
  refine ⟨?_, ?_, ?_, rfl⟩ <;> simp [openHistory, historyEffect, historyResolve, h]

/-- Concrete instance of `C6_open_fetches_and_replaces`: first open from
the initial state, backend returning one history entry. -/
theorem C6_open_fetches_and_replaces_witness :
    initialState.showHistory = false
      ∧ (openHistory initialState).2 = 1
      ∧ (openHistory initialState).1.loadingHistory = true
      ∧ historyResolve (openHistory initialState).1
            (HistoryOutcome.success ⟨some [{ sender := Sender.user, text := "hi", timestamp := "10:00" }]⟩)
          = ⟨[], "", true, [{ sender := Sender.user, text := "hi", timestamp := "10:00" }], false⟩
      ∧ historyField ⟨none⟩ = [] := by
  have h := C6_open_fetches_and_replaces initialState
    ⟨some [{ sender := Sender.user, text := "hi", timestamp := "10:00" }]⟩ rfl
  exact ⟨rfl, h.1, h.2.1, h.2.2.1, h.2.2.2⟩

/-- Claim C7, as stated, fails: a failing history fetch leaves the
previously displayed list in place, not an empty list.  Opening with a
successful fetch of one entry, closing, then reopening while the backend
fails leaves that entry displayed. -/
theorem C7_counterexample :
    (run initialState
        [Event.openPanel (HistoryOutcome.success
            ⟨some [{ sender := Sender.user, text := "hi", timestamp := "10:00" }]⟩),
         Event.closePanel,
         Event.openPanel HistoryOutcome.failure]).1.history
        = [{ sender := Sender.user, text := "hi", timestamp := "10:00" }]
      ∧ (run initialState
          [Event.openPanel (HistoryOutcome.success
              ⟨some [{ sender := Sender.user, text := "hi", timestamp := "10:00" }]⟩),
           Event.closePanel,
           Event.openPanel HistoryOutcome.failure]).1.loadingHistory = false
      ∧ [{ sender := Sender.user, text := "hi", timestamp := "10:00" }] ≠ ([] : List Message) := by
  refine ⟨by decide, by decide, by decide⟩

/-- Claim C7 (amended): for every history fetch that fails, the loading
indicator is cleared, the displayed history list is left unchanged —
hence empty when nothing was fetched before, as on a first open from the
initial state — no message is added to the transcript, and the handler
is total, so no unhandled error is thrown. -/
theorem C7_failed_fetch_silent (s : AppState) (h : s.showHistory = false) :
    (step s (Event.openPanel HistoryOutcome.failure)).1.loadingHistory = false
      ∧ (step s (Event.openPanel HistoryOutcome.failure)).1.history = s.history
      ∧ (step s (Event.openPanel HistoryOutcome.failure)).1.messages = s.messages
      ∧ (run initialState [Event.openPanel HistoryOutcome.failure]).1.history = [] := by
  refine ⟨?_, ?_, ?_, by decide⟩ <;>
    simp [step, h, openHistory, historyEffect, historyResolve]

/-- Concrete instance of `C7_failed_fetch_silent` at the initial state. -/
theorem C7_failed_fetch_silent_witness :
    initialState.showHistory = false
      ∧ (step initialState (Event.openPanel HistoryOutcome.failure)).1.loadingHistory = false
      ∧ (step initialState (Event.openPanel HistoryOutcome.failure)).1.history = initialState.history
      ∧ (step initialState (Event.openPanel HistoryOutcome.failure)).1.messages = initialState.messages
      ∧ (run initialState [Event.openPanel HistoryOutcome.failure]).1.history = [] := by
  have h := C7_failed_fetch_silent initialState rfl
  exact ⟨rfl, h.1, h.2.1, h.2.2.1, h.2.2.2⟩

/-- Claim C8: along any event trace, the cumulative number of
`GET /history` requests equals the number of closed-to-open transitions
of the History Panel — every reopen fetches afresh and a prior in-memory
result is never reused in place of a fetch. -/
theorem C8_fresh_fetch_per_open (s : AppState) (es : List Event) :
    (run s es).2.2 = openTransitions s es := by
  induction es generalizing s with
  | nil => rfl
  | cons e es ih =>
      show (step s e).2.2 + (run (step s e).1 es).2.2 = _
      rw [step_history_requests, ih]
      rfl

/-- Claim C9: the session list is append-only — every UI event extends
the list at the end, never modifying, reordering or removing existing
messages — and every appended message has sender `user` or `bot` (text
and timestamp are always-present string fields by construction). -/
theorem C9_append_only (s : AppState) (e : Event) :
    ∃ t, (step s e).1.messages = s.messages ++ t
      ∧ ∀ m ∈ t, m.sender = Sender.user ∨ m.sender = Sender.bot := by
  cases e with
  | setInput t => exact ⟨[], by simp [step], by simp⟩
  | submit outcome now now2 =>
      by_cases h : jsTrim s.input.data = []
      · exact ⟨[], by simp [step, sendMessage, h], by simp⟩
      · refine ⟨[{ sender := Sender.user, text := s.input, timestamp := now },
          { sender := Sender.bot, text := chatBotText outcome, timestamp := now2 }], ?_, ?_⟩
        · simp [step, sendMessage, sendMessagePre, sendMessageResolve, h]
        · intro m hm
          simp only [List.mem_cons, List.mem_singleton, List.not_mem_nil, or_false] at hm
          rcases hm with hm | hm <;> simp [hm]
  | openPanel outcome =>
      refine ⟨[], ?_, by simp⟩
      cases hs : s.showHistory with
      | true => simp [step, hs]
      | false => cases outcome <;> simp [step, hs, openHistory, historyEffect, historyResolve]
  | closePanel =>
      refine ⟨[], ?_, by simp⟩
      cases hs : s.showHistory <;> simp [step, closeHistory, historyEffect, hs]

/-- Claim C10: a successful chat response whose `reply` field is the
empty string is handled exactly like an absent `reply` field — the
appended bot message carries the placeholder `"(No reply)"`, not the
empty reply. -/
theorem C10_empty_reply_treated_as_missing (s : AppState) (ok : Bool)
    (now now2 : String) :
    sendMessage s (ChatOutcome.response ok (some ⟨some ""⟩)) now now2
        = sendMessage s (ChatOutcome.response ok (some ⟨none⟩)) now now2
      ∧ chatBotText (ChatOutcome.response ok (some ⟨some ""⟩)) = noReplyText := by
  constructor
  · simp [sendMessage, sendMessageResolve, chatBotText, chatReplyText, jsStringOr]
  · rfl

end Chatbot
